import Mathlib

/-!
Verification of the s3hop synchronization core (src/s3hop/core.py) against its
natural-language specification.  Python strings are modelled as lists of
characters, timestamps and wall-clock instants as rationals, byte sizes as
naturals, and the mutable `ProgressTracker` object as a record threaded through
explicit state-passing versions of its methods.  The lock discipline of the
tracker (every mutator and the snapshot reader run under `self._lock`) is
modelled by treating each mutator call as one atomic step.
-/

namespace S3hop

/-- Python strings, modelled as lists of characters. -/
abbrev Str := List Char

/-- Coercion from Lean string literals into the model's string type. -/
def str (s : String) : Str := s.data

/-- The transfer status constants of `class TransferStatus` (core.py lines 18-21). -/
inductive TransferStatus where
  | NEW
  | EXISTING
  | UPDATED
deriving DecidableEq

/-- Metadata recorded for one listed object by `get_object_info`
(core.py lines 151-156): full key, size, ETag with quotes stripped,
and last-modified timestamp. -/
structure ObjInfo where
  full_key : Str
  size : Nat
  etag : Str
  last_modified : ℚ
deriving DecidableEq

/-- One value of the `to_transfer` dict built by `analyze_transfer_needs`
(core.py lines 181-185 and 196-200). -/
structure TransferInfo where
  size : Nat
  dest_key : Option Str
  status : TransferStatus
deriving DecidableEq

/-- One value of the `existing` dict built by `analyze_transfer_needs`
(core.py lines 189-192). -/
structure ExistInfo where
  size : Nat
  dest_key : Str
deriving DecidableEq

/-- Python dict lookup on an association list with unique keys
(`d[k]` together with the `k in d` test). -/
def dictGet {α : Type} : List (Str × α) → Str → Option α
  | [], _ => none
  | (k, v) :: rest, key => if k = key then some v else dictGet rest key

/-- Function `get_relative_path` (core.py lines 132-138): if the prefix is non-empty and
the key starts with it, drop it; then `lstrip("/")`, i.e. remove every leading
slash. -/
def get_relative_path (key pfx : Str) : Str :=
  let key := if pfx ≠ [] ∧ pfx <+: key then key.drop pfx.length else key
  key.dropWhile (· == '/')

/-- Two-argument `os.path.join` on POSIX paths, as called at core.py line 336. -/
def osPathJoin (a b : Str) : Str :=
  if b.head? = some '/' then b
  else if a = [] ∨ a.getLast? = some '/' then a ++ b
  else a ++ '/' :: b

/-- The extension key computed by `update_extension_stats` (core.py line 70):
`key.split(".")[-1].lower() if "." in key else "no_extension"`.  The last
element of `key.split(".")` is the segment after the final dot, lowercased. -/
def extKey (key : Str) : Str :=
  if '.' ∈ key then ((key.reverse.takeWhile (fun c => c ≠ '.')).reverse).map Char.toLower
  else str "no_extension"

/-- The mutable state of `class ProgressTracker` (core.py lines 24-41).
`extension_stats` is a `defaultdict` whose entries default to
`{"count": 0, "size": 0}`, so it is modelled as a total function; the
count/size pair is the (count, size) value.  `status_counts` maps the three
status constants to counters. -/
structure ProgressTracker where
  start_time : ℚ
  total_files : Nat
  total_size : Nat
  processed_files : Nat
  processed_size : Nat
  current_speed : ℚ
  failed_files : List Str
  extension_stats : Str → Nat × Nat
  skipped_files : Nat
  skipped_size : Nat
  status_counts : TransferStatus → Nat

/-- Constructor `ProgressTracker.__init__` (core.py lines 25-41), with the construction
instant `time.time()` passed explicitly. -/
def initTracker (now : ℚ) : ProgressTracker where
  start_time := now
  total_files := 0
  total_size := 0
  processed_files := 0
  processed_size := 0
  current_speed := 0
  failed_files := []
  extension_stats := fun _ => (0, 0)
  skipped_files := 0
  skipped_size := 0
  status_counts := fun _ => 0

/-- Method `ProgressTracker.update` (core.py lines 43-49): increment the processed
counters, then recompute `current_speed` from the just-incremented
`processed_size` when the elapsed time `now - start_time` is positive,
leaving it unchanged otherwise.  `now` is the value `time.time()` read inside
the call. -/
def ProgressTracker.update (t : ProgressTracker) (file_size : Nat) (now : ℚ) :
    ProgressTracker :=
  { t with
    processed_files := t.processed_files + 1
    processed_size := t.processed_size + file_size
    current_speed :=
      if 0 < now - t.start_time
      then ((t.processed_size + file_size : Nat) : ℚ) / (now - t.start_time)
      else t.current_speed }

/-- Method `ProgressTracker.add_total` (core.py lines 51-54). -/
def ProgressTracker.add_total (t : ProgressTracker) (count size : Nat) :
    ProgressTracker :=
  { t with total_files := count, total_size := size }

/-- Method `ProgressTracker.add_failed` (core.py lines 56-58): append one key. -/
def ProgressTracker.add_failed (t : ProgressTracker) (key : Str) :
    ProgressTracker :=
  { t with failed_files := t.failed_files ++ [key] }

/-- Method `ProgressTracker.add_skipped` (core.py lines 60-63). -/
def ProgressTracker.add_skipped (t : ProgressTracker) (size : Nat) :
    ProgressTracker :=
  { t with
    skipped_files := t.skipped_files + 1
    skipped_size := t.skipped_size + size }

/-- Method `ProgressTracker.update_status_count` (core.py lines 65-67). -/
def ProgressTracker.update_status_count (t : ProgressTracker)
    (status : TransferStatus) : ProgressTracker :=
  { t with
    status_counts := fun s =>
      if s = status then t.status_counts s + 1 else t.status_counts s }

/-- Method `ProgressTracker.update_extension_stats` (core.py lines 69-73): bump the
count and size of the bucket keyed by `extKey key`. -/
def ProgressTracker.update_extension_stats (t : ProgressTracker) (key : Str)
    (size : Nat) : ProgressTracker :=
  { t with
    extension_stats := fun e =>
      if e = extKey key
      then ((t.extension_stats e).1 + 1, (t.extension_stats e).2 + size)
      else t.extension_stats e }

/-- The numeric content of the dict returned by `get_progress_stats`
(core.py lines 83-102); the humanized renderings are external formatting.
`eta` is `some eta_seconds` when the code would render `naturaldelta`, and
`none` when it would render the "calculating..." sentinel. -/
structure ProgressStats where
  processed : Nat
  total : Nat
  processed_size : Nat
  total_size : Nat
  speed : ℚ
  elapsed : ℚ
  eta_seconds : ℚ
  eta : Option ℚ
  percent : ℚ
  skipped : Nat
  skipped_size : Nat

/-- Method `ProgressTracker.get_progress_stats` (core.py lines 75-102), with the
snapshot instant `time.time()` passed explicitly. -/
def ProgressTracker.get_progress_stats (t : ProgressTracker) (now : ℚ) :
    ProgressStats :=
  let elapsed := now - t.start_time
  let remaining_size : ℚ := (t.total_size : ℚ) - t.processed_size - t.skipped_size
  let eta_seconds : ℚ :=
    if 0 < t.current_speed then remaining_size / t.current_speed else 0
  { processed := t.processed_files
    total := t.total_files
    processed_size := t.processed_size
    total_size := t.total_size
    speed := t.current_speed
    elapsed := elapsed
    eta_seconds := eta_seconds
    eta := if 0 < eta_seconds then some eta_seconds else none
    percent :=
      if 0 < t.total_size
      then ((t.processed_size : ℚ) + t.skipped_size) / t.total_size * 100
      else 0
    skipped := t.skipped_files
    skipped_size := t.skipped_size }

/-- Function `analyze_transfer_needs` (core.py lines 161-203).  The Python dicts
`to_transfer` (keyed by source full key) and `existing` are modelled as
association lists in iteration order; this matches dict semantics whenever the
source records carry pairwise distinct full keys, which holds for listings
produced by `get_object_info` because the relative path is a function of the
full key. -/
def analyze_transfer_needs :
    List (Str × ObjInfo) → List (Str × ObjInfo) →
      List (Str × TransferInfo) × List (Str × ExistInfo) × Nat × Nat
  | [], _ => ([], [], 0, 0)
  | (rel_path, source_info) :: rest, dest_objects =>
    let r := analyze_transfer_needs rest dest_objects
    match dictGet dest_objects rel_path with
    | some dest_info =>
      if source_info.etag ≠ dest_info.etag ∨
          dest_info.last_modified < source_info.last_modified then
        ((source_info.full_key,
            ⟨source_info.size, some dest_info.full_key, TransferStatus.UPDATED⟩)
              :: r.1,
          r.2.1, r.2.2.1 + source_info.size, r.2.2.2)
      else
        (r.1,
          (source_info.full_key, ⟨source_info.size, dest_info.full_key⟩) :: r.2.1,
          r.2.2.1, r.2.2.2 + source_info.size)
    | none =>
      ((source_info.full_key, ⟨source_info.size, none, TransferStatus.NEW⟩) :: r.1,
        r.2.1, r.2.2.1 + source_info.size, r.2.2.2)

/-- Destination-key resolution in the transfer loop (core.py lines 328-337):
`if info["dest_key"]:` is Python truthiness, so a carried key is used only when
it is not `None` and not the empty string; otherwise the key is recomputed from
the destination prefix and the source-relative path. -/
def resolveDestKey (src_pfx dst_pfx source_key : Str) (info : TransferInfo) :
    Str :=
  match info.dest_key with
  | some d =>
    if d ≠ [] then d
    else
      let rel_path := get_relative_path source_key src_pfx
      if dst_pfx ≠ [] then osPathJoin dst_pfx rel_path else rel_path
  | none =>
    let rel_path := get_relative_path source_key src_pfx
    if dst_pfx ≠ [] then osPathJoin dst_pfx rel_path else rel_path

/-- One iteration of the skip loop (core.py lines 299-302). -/
def skipStep (t : ProgressTracker) (e : Str × ExistInfo) : ProgressTracker :=
  ((t.add_skipped e.2.size).update_status_count TransferStatus.EXISTING
    ).update_extension_stats e.1 e.2.size

/-- The skip loop over all `existing` entries (core.py lines 299-302). -/
def skipPhase (t : ProgressTracker) : List (Str × ExistInfo) → ProgressTracker
  | [] => t
  | e :: rest => skipPhase (skipStep t e) rest

/-- One iteration of the transfer loop (core.py lines 325-361).  `ok k` tells
whether the storage calls for source key `k` succeed or raise `ClientError`;
on success the tracker is updated in source order (`update`, then
`update_extension_stats`, then `update_status_count`), and on failure only
`add_failed` runs.  `clock` supplies the `time.time()` value of the i-th
successful `update` call; the second state component counts those calls. -/
def transferStep (clock : Nat → ℚ) (ok : Str → Bool)
    (s : ProgressTracker × Nat) (item : Str × TransferInfo) :
    ProgressTracker × Nat :=
  if ok item.1 then
    ((((s.1.update item.2.size (clock s.2)).update_extension_stats item.1
        item.2.size).update_status_count item.2.status), s.2 + 1)
  else
    (s.1.add_failed item.1, s.2)

/-- The transfer loop over all `to_transfer` entries (core.py lines 325-361). -/
def transferPhase (clock : Nat → ℚ) (ok : Str → Bool) :
    ProgressTracker × Nat → List (Str × TransferInfo) → ProgressTracker × Nat
  | s, [] => s
  | s, item :: rest => transferPhase clock ok (transferStep clock ok s item) rest

/-- Total size of the source listing, `sum(obj["size"] for obj in
source_objects.values())` (core.py line 295). -/
def sizesSum (l : List (Str × ObjInfo)) : Nat :=
  (l.map (fun p => p.2.size)).sum

/-- Total size of a list of `existing` entries. -/
def exSizesSum (l : List (Str × ExistInfo)) : Nat :=
  (l.map (fun p => p.2.size)).sum

/-- The tracker state when the transfer loop is entered: totals phase
(core.py lines 294-296) followed by the skip phase (lines 299-302). -/
def preTransferTracker (start : ℚ) (source dest : List (Str × ObjInfo)) :
    ProgressTracker :=
  skipPhase ((initTracker start).add_total source.length (sizesSum source))
    (analyze_transfer_needs source dest).2.1

/-- The tracker-state evolution of `copy_bucket` (core.py lines 247-373):
plan, return immediately when nothing needs transfer (lines 289-291),
otherwise totals phase, skip phase and transfer loop.  I/O and rendering are
external; `clock` and `ok` parameterize wall-clock reads and per-object
storage outcomes. -/
def copy_bucket (clock : Nat → ℚ) (ok : Str → Bool) (start : ℚ)
    (source_objects dest_objects : List (Str × ObjInfo)) : ProgressTracker :=
  if (analyze_transfer_needs source_objects dest_objects).1 = [] then
    initTracker start
  else
    (transferPhase clock ok
      (preTransferTracker start source_objects dest_objects, 0)
      (analyze_transfer_needs source_objects dest_objects).1).1

/-- Every tracker state reached during the skip loop, in order. -/
def skipTrace (t : ProgressTracker) :
    List (Str × ExistInfo) → List ProgressTracker
  | [] => []
  | e :: rest => skipStep t e :: skipTrace (skipStep t e) rest

/-- Every tracker state reached during the transfer loop, in order. -/
def transferTrace (clock : Nat → ℚ) (ok : Str → Bool) :
    ProgressTracker × Nat → List (Str × TransferInfo) → List ProgressTracker
  | _, [] => []
  | s, item :: rest =>
    (transferStep clock ok s item).1 ::
      transferTrace clock ok (transferStep clock ok s item) rest

/-- Every tracker state arising during a `copy_bucket` run, in order:
the freshly constructed tracker, then (when something needs transfer) the
state after the totals phase, each state of the skip loop, and each state of
the transfer loop. -/
def copyBucketTrace (clock : Nat → ℚ) (ok : Str → Bool) (start : ℚ)
    (source dest : List (Str × ObjInfo)) : List ProgressTracker :=
  if (analyze_transfer_needs source dest).1 = [] then [initTracker start]
  else
    let t1 := (initTracker start).add_total source.length (sizesSum source)
    initTracker start :: t1 ::
      (skipTrace t1 (analyze_transfer_needs source dest).2.1 ++
        transferTrace clock ok
          (skipPhase t1 (analyze_transfer_needs source dest).2.1, 0)
          (analyze_transfer_needs source dest).1)

/-- Repeated atomic `update` calls: the sizes and `time.time()` instants of a
sequence of successful-transfer recordings. -/
def applyUpdates (t : ProgressTracker) : List (Nat × ℚ) → ProgressTracker
  | [] => t
  | (size, now) :: rest => applyUpdates (t.update size now) rest

/-! ### Field-effect lemmas for the tracker mutators -/

@[simp] theorem update_start_time (t : ProgressTracker) (s : Nat) (n : ℚ) :
    (t.update s n).start_time = t.start_time := rfl

@[simp] theorem update_total_files (t : ProgressTracker) (s : Nat) (n : ℚ) :
    (t.update s n).total_files = t.total_files := rfl

@[simp] theorem update_total_size (t : ProgressTracker) (s : Nat) (n : ℚ) :
    (t.update s n).total_size = t.total_size := rfl

@[simp] theorem update_processed_files (t : ProgressTracker) (s : Nat) (n : ℚ) :
    (t.update s n).processed_files = t.processed_files + 1 := rfl

@[simp] theorem update_processed_size (t : ProgressTracker) (s : Nat) (n : ℚ) :
    (t.update s n).processed_size = t.processed_size + s := rfl

@[simp] theorem update_failed_files (t : ProgressTracker) (s : Nat) (n : ℚ) :
    (t.update s n).failed_files = t.failed_files := rfl

@[simp] theorem update_extension_stats_of_update (t : ProgressTracker) (s : Nat)
    (n : ℚ) : (t.update s n).extension_stats = t.extension_stats := rfl

@[simp] theorem update_skipped_files (t : ProgressTracker) (s : Nat) (n : ℚ) :
    (t.update s n).skipped_files = t.skipped_files := rfl

@[simp] theorem update_skipped_size (t : ProgressTracker) (s : Nat) (n : ℚ) :
    (t.update s n).skipped_size = t.skipped_size := rfl

@[simp] theorem update_status_counts (t : ProgressTracker) (s : Nat) (n : ℚ) :
    (t.update s n).status_counts = t.status_counts := rfl

theorem update_current_speed (t : ProgressTracker) (s : Nat) (n : ℚ) :
    (t.update s n).current_speed =
      if 0 < n - t.start_time
      then ((t.processed_size + s : Nat) : ℚ) / (n - t.start_time)
      else t.current_speed := rfl

@[simp] theorem add_total_start_time (t : ProgressTracker) (c s : Nat) :
    (t.add_total c s).start_time = t.start_time := rfl

@[simp] theorem add_total_total_files (t : ProgressTracker) (c s : Nat) :
    (t.add_total c s).total_files = c := rfl

@[simp] theorem add_total_total_size (t : ProgressTracker) (c s : Nat) :
    (t.add_total c s).total_size = s := rfl

@[simp] theorem add_total_processed_files (t : ProgressTracker) (c s : Nat) :
    (t.add_total c s).processed_files = t.processed_files := rfl

@[simp] theorem add_total_processed_size (t : ProgressTracker) (c s : Nat) :
    (t.add_total c s).processed_size = t.processed_size := rfl

@[simp] theorem add_total_current_speed (t : ProgressTracker) (c s : Nat) :
    (t.add_total c s).current_speed = t.current_speed := rfl

@[simp] theorem add_total_failed_files (t : ProgressTracker) (c s : Nat) :
    (t.add_total c s).failed_files = t.failed_files := rfl

@[simp] theorem add_total_extension_stats (t : ProgressTracker) (c s : Nat) :
    (t.add_total c s).extension_stats = t.extension_stats := rfl

@[simp] theorem add_total_skipped_files (t : ProgressTracker) (c s : Nat) :
    (t.add_total c s).skipped_files = t.skipped_files := rfl

@[simp] theorem add_total_skipped_size (t : ProgressTracker) (c s : Nat) :
    (t.add_total c s).skipped_size = t.skipped_size := rfl

@[simp] theorem add_total_status_counts (t : ProgressTracker) (c s : Nat) :
    (t.add_total c s).status_counts = t.status_counts := rfl

@[simp] theorem add_failed_start_time (t : ProgressTracker) (k : Str) :
    (t.add_failed k).start_time = t.start_time := rfl

@[simp] theorem add_failed_total_files (t : ProgressTracker) (k : Str) :
    (t.add_failed k).total_files = t.total_files := rfl

@[simp] theorem add_failed_total_size (t : ProgressTracker) (k : Str) :
    (t.add_failed k).total_size = t.total_size := rfl

@[simp] theorem add_failed_processed_files (t : ProgressTracker) (k : Str) :
    (t.add_failed k).processed_files = t.processed_files := rfl

@[simp] theorem add_failed_processed_size (t : ProgressTracker) (k : Str) :
    (t.add_failed k).processed_size = t.processed_size := rfl

@[simp] theorem add_failed_current_speed (t : ProgressTracker) (k : Str) :
    (t.add_failed k).current_speed = t.current_speed := rfl

@[simp] theorem add_failed_failed_files (t : ProgressTracker) (k : Str) :
    (t.add_failed k).failed_files = t.failed_files ++ [k] := rfl

@[simp] theorem add_failed_extension_stats (t : ProgressTracker) (k : Str) :
    (t.add_failed k).extension_stats = t.extension_stats := rfl

@[simp] theorem add_failed_skipped_files (t : ProgressTracker) (k : Str) :
    (t.add_failed k).skipped_files = t.skipped_files := rfl

@[simp] theorem add_failed_skipped_size (t : ProgressTracker) (k : Str) :
    (t.add_failed k).skipped_size = t.skipped_size := rfl

@[simp] theorem add_failed_status_counts (t : ProgressTracker) (k : Str) :
    (t.add_failed k).status_counts = t.status_counts := rfl

@[simp] theorem add_skipped_start_time (t : ProgressTracker) (s : Nat) :
    (t.add_skipped s).start_time = t.start_time := rfl

@[simp] theorem add_skipped_total_files (t : ProgressTracker) (s : Nat) :
    (t.add_skipped s).total_files = t.total_files := rfl

@[simp] theorem add_skipped_total_size (t : ProgressTracker) (s : Nat) :
    (t.add_skipped s).total_size = t.total_size := rfl

@[simp] theorem add_skipped_processed_files (t : ProgressTracker) (s : Nat) :
    (t.add_skipped s).processed_files = t.processed_files := rfl

@[simp] theorem add_skipped_processed_size (t : ProgressTracker) (s : Nat) :
    (t.add_skipped s).processed_size = t.processed_size := rfl

@[simp] theorem add_skipped_current_speed (t : ProgressTracker) (s : Nat) :
    (t.add_skipped s).current_speed = t.current_speed := rfl

@[simp] theorem add_skipped_failed_files (t : ProgressTracker) (s : Nat) :
    (t.add_skipped s).failed_files = t.failed_files := rfl

@[simp] theorem add_skipped_extension_stats (t : ProgressTracker) (s : Nat) :
    (t.add_skipped s).extension_stats = t.extension_stats := rfl

@[simp] theorem add_skipped_skipped_files (t : ProgressTracker) (s : Nat) :
    (t.add_skipped s).skipped_files = t.skipped_files + 1 := rfl

@[simp] theorem add_skipped_skipped_size (t : ProgressTracker) (s : Nat) :
    (t.add_skipped s).skipped_size = t.skipped_size + s := rfl

@[simp] theorem add_skipped_status_counts (t : ProgressTracker) (s : Nat) :
    (t.add_skipped s).status_counts = t.status_counts := rfl

@[simp] theorem status_count_start_time (t : ProgressTracker)
    (st : TransferStatus) : (t.update_status_count st).start_time = t.start_time :=
  rfl

@[simp] theorem status_count_total_files (t : ProgressTracker)
    (st : TransferStatus) :
    (t.update_status_count st).total_files = t.total_files := rfl

@[simp] theorem status_count_total_size (t : ProgressTracker)
    (st : TransferStatus) :
    (t.update_status_count st).total_size = t.total_size := rfl

@[simp] theorem status_count_processed_files (t : ProgressTracker)
    (st : TransferStatus) :
    (t.update_status_count st).processed_files = t.processed_files := rfl

@[simp] theorem status_count_processed_size (t : ProgressTracker)
    (st : TransferStatus) :
    (t.update_status_count st).processed_size = t.processed_size := rfl

@[simp] theorem status_count_current_speed (t : ProgressTracker)
    (st : TransferStatus) :
    (t.update_status_count st).current_speed = t.current_speed := rfl

@[simp] theorem status_count_failed_files (t : ProgressTracker)
    (st : TransferStatus) :
    (t.update_status_count st).failed_files = t.failed_files := rfl

@[simp] theorem status_count_extension_stats (t : ProgressTracker)
    (st : TransferStatus) :
    (t.update_status_count st).extension_stats = t.extension_stats := rfl

@[simp] theorem status_count_skipped_files (t : ProgressTracker)
    (st : TransferStatus) :
    (t.update_status_count st).skipped_files = t.skipped_files := rfl

@[simp] theorem status_count_skipped_size (t : ProgressTracker)
    (st : TransferStatus) :
    (t.update_status_count st).skipped_size = t.skipped_size := rfl

theorem status_count_apply (t : ProgressTracker) (st s : TransferStatus) :
    (t.update_status_count st).status_counts s =
      if s = st then t.status_counts s + 1 else t.status_counts s := rfl

@[simp] theorem ext_stats_start_time (t : ProgressTracker) (k : Str) (s : Nat) :
    (t.update_extension_stats k s).start_time = t.start_time := rfl

@[simp] theorem ext_stats_total_files (t : ProgressTracker) (k : Str) (s : Nat) :
    (t.update_extension_stats k s).total_files = t.total_files := rfl

@[simp] theorem ext_stats_total_size (t : ProgressTracker) (k : Str) (s : Nat) :
    (t.update_extension_stats k s).total_size = t.total_size := rfl

@[simp] theorem ext_stats_processed_files (t : ProgressTracker) (k : Str)
    (s : Nat) :
    (t.update_extension_stats k s).processed_files = t.processed_files := rfl

@[simp] theorem ext_stats_processed_size (t : ProgressTracker) (k : Str)
    (s : Nat) :
    (t.update_extension_stats k s).processed_size = t.processed_size := rfl

@[simp] theorem ext_stats_current_speed (t : ProgressTracker) (k : Str)
    (s : Nat) :
    (t.update_extension_stats k s).current_speed = t.current_speed := rfl

@[simp] theorem ext_stats_failed_files (t : ProgressTracker) (k : Str)
    (s : Nat) :
    (t.update_extension_stats k s).failed_files = t.failed_files := rfl

@[simp] theorem ext_stats_skipped_files (t : ProgressTracker) (k : Str)
    (s : Nat) :
    (t.update_extension_stats k s).skipped_files = t.skipped_files := rfl

@[simp] theorem ext_stats_skipped_size (t : ProgressTracker) (k : Str)
    (s : Nat) :
    (t.update_extension_stats k s).skipped_size = t.skipped_size := rfl

@[simp] theorem ext_stats_status_counts (t : ProgressTracker) (k : Str)
    (s : Nat) :
    (t.update_extension_stats k s).status_counts = t.status_counts := rfl

theorem ext_stats_apply (t : ProgressTracker) (k : Str) (s : Nat) (e : Str) :
    (t.update_extension_stats k s).extension_stats e =
      if e = extKey k
      then ((t.extension_stats e).1 + 1, (t.extension_stats e).2 + s)
      else t.extension_stats e := rfl

/-! ### Helper lemmas about strings, dict lookup and the loop phases -/

theorem dropWhile_head_not (p : Char → Bool) :
    ∀ {l : List Char} {c : Char}, (l.dropWhile p).head? = some c → p c = false := by
  intro l
  induction l with
  | nil => intro c h; simp [List.dropWhile] at h
  | cons a rest ih =>
    intro c h
    simp only [List.dropWhile] at h
    cases hpa : p a with
    | true => rw [hpa] at h; exact ih h
    | false =>
      rw [hpa] at h
      simp only [List.head?_cons, Option.some.injEq] at h
      rw [← h]; exact hpa

theorem dropWhile_idem (p : Char → Bool) (l : List Char) :
    (l.dropWhile p).dropWhile p = l.dropWhile p := by
  induction l with
  | nil => rfl
  | cons a rest ih =>
    simp only [List.dropWhile]
    cases hpa : p a with
    | true => exact ih
    | false => simp [List.dropWhile, hpa]

theorem dictGet_mem {α : Type} {l : List (Str × α)} {k : Str} {v : α}
    (h : dictGet l k = some v) : (k, v) ∈ l := by
  induction l with
  | nil => simp [dictGet] at h
  | cons p rest ih =>
    obtain ⟨k', v'⟩ := p
    simp only [dictGet] at h
    split at h
    · next heq =>
      obtain rfl := heq
      obtain rfl : v' = v := by injection h
      exact List.mem_cons_self _ _
    · exact List.mem_cons_of_mem _ (ih h)

/-- Number of plan entries whose storage calls succeed. -/
def okCount (ok : Str → Bool) (items : List (Str × TransferInfo)) : Nat :=
  (items.filter (fun it => ok it.1)).length

/-- Source keys of the plan entries whose storage calls fail, in order. -/
def failedKeys (ok : Str → Bool) (items : List (Str × TransferInfo)) :
    List Str :=
  (items.filter (fun it => !ok it.1)).map (fun it => it.1)

/-- One extension-stats recording applied to the stats map. -/
def extBump (f : Str → Nat × Nat) (key : Str) (size : Nat) : Str → Nat × Nat :=
  fun e => if e = extKey key then ((f e).1 + 1, (f e).2 + size) else f e

theorem ext_stats_as_extBump (t : ProgressTracker) (k : Str) (s : Nat) :
    (t.update_extension_stats k s).extension_stats =
      extBump t.extension_stats k s := rfl

theorem okCount_add_failedKeys_length (ok : Str → Bool)
    (items : List (Str × TransferInfo)) :
    okCount ok items + (failedKeys ok items).length = items.length := by
  induction items with
  | nil => rfl
  | cons it rest ih =>
    simp only [okCount, failedKeys, List.length_map] at ih ⊢
    cases h : ok it.1 <;> simp [List.filter_cons, h] <;> omega

theorem skipPhase_start_time (ex : List (Str × ExistInfo)) :
    ∀ t : ProgressTracker, (skipPhase t ex).start_time = t.start_time := by
  induction ex with
  | nil => intro t; rfl
  | cons e rest ih =>
    intro t
    rw [skipPhase, ih (skipStep t e)]
    simp [skipStep]

theorem skipPhase_total_files (ex : List (Str × ExistInfo)) :
    ∀ t : ProgressTracker, (skipPhase t ex).total_files = t.total_files := by
  induction ex with
  | nil => intro t; rfl
  | cons e rest ih =>
    intro t
    rw [skipPhase, ih (skipStep t e)]
    simp [skipStep]

theorem skipPhase_total_size (ex : List (Str × ExistInfo)) :
    ∀ t : ProgressTracker, (skipPhase t ex).total_size = t.total_size := by
  induction ex with
  | nil => intro t; rfl
  | cons e rest ih =>
    intro t
    rw [skipPhase, ih (skipStep t e)]
    simp [skipStep]

theorem skipPhase_processed_files (ex : List (Str × ExistInfo)) :
    ∀ t : ProgressTracker,
      (skipPhase t ex).processed_files = t.processed_files := by
  induction ex with
  | nil => intro t; rfl
  | cons e rest ih =>
    intro t
    rw [skipPhase, ih (skipStep t e)]
    simp [skipStep]

theorem skipPhase_processed_size (ex : List (Str × ExistInfo)) :
    ∀ t : ProgressTracker,
      (skipPhase t ex).processed_size = t.processed_size := by
  induction ex with
  | nil => intro t; rfl
  | cons e rest ih =>
    intro t
    rw [skipPhase, ih (skipStep t e)]
    simp [skipStep]

theorem skipPhase_current_speed (ex : List (Str × ExistInfo)) :
    ∀ t : ProgressTracker,
      (skipPhase t ex).current_speed = t.current_speed := by
  induction ex with
  | nil => intro t; rfl
  | cons e rest ih =>
    intro t
    rw [skipPhase, ih (skipStep t e)]
    simp [skipStep]

theorem skipPhase_failed_files (ex : List (Str × ExistInfo)) :
    ∀ t : ProgressTracker, (skipPhase t ex).failed_files = t.failed_files := by
  induction ex with
  | nil => intro t; rfl
  | cons e rest ih =>
    intro t
    rw [skipPhase, ih (skipStep t e)]
    simp [skipStep]

theorem skipPhase_skipped_files (ex : List (Str × ExistInfo)) :
    ∀ t : ProgressTracker,
      (skipPhase t ex).skipped_files = t.skipped_files + ex.length := by
  induction ex with
  | nil => intro t; rfl
  | cons e rest ih =>
    intro t
    rw [skipPhase, ih (skipStep t e)]
    simp [skipStep]
    omega

theorem skipPhase_skipped_size (ex : List (Str × ExistInfo)) :
    ∀ t : ProgressTracker,
      (skipPhase t ex).skipped_size = t.skipped_size + exSizesSum ex := by
  induction ex with
  | nil => intro t; simp [skipPhase, exSizesSum]
  | cons e rest ih =>
    intro t
    rw [skipPhase, ih (skipStep t e)]
    simp [skipStep, exSizesSum]
    omega

theorem skipPhase_status_EXISTING (ex : List (Str × ExistInfo)) :
    ∀ t : ProgressTracker,
      (skipPhase t ex).status_counts TransferStatus.EXISTING =
        t.status_counts TransferStatus.EXISTING + ex.length := by
  induction ex with
  | nil => intro t; rfl
  | cons e rest ih =>
    intro t
    rw [skipPhase, ih (skipStep t e)]
    simp [skipStep, status_count_apply]
    omega

theorem skipPhase_extension_stats (ex : List (Str × ExistInfo)) :
    ∀ t : ProgressTracker,
      (skipPhase t ex).extension_stats =
        ex.foldl (fun f e => extBump f e.1 e.2.size) t.extension_stats := by
  induction ex with
  | nil => intro t; rfl
  | cons e rest ih =>
    intro t
    rw [skipPhase, ih (skipStep t e)]
    rw [List.foldl_cons]
    congr 1

theorem transferPhase_start_time (clock : Nat → ℚ) (ok : Str → Bool)
    (items : List (Str × TransferInfo)) :
    ∀ s : ProgressTracker × Nat,
      (transferPhase clock ok s items).1.start_time = s.1.start_time := by
  induction items with
  | nil => intro s; rfl
  | cons it rest ih =>
    intro s
    rw [transferPhase, ih (transferStep clock ok s it)]
    cases h : ok it.1 <;> simp [transferStep, h]

theorem transferPhase_total_files (clock : Nat → ℚ) (ok : Str → Bool)
    (items : List (Str × TransferInfo)) :
    ∀ s : ProgressTracker × Nat,
      (transferPhase clock ok s items).1.total_files = s.1.total_files := by
  induction items with
  | nil => intro s; rfl
  | cons it rest ih =>
    intro s
    rw [transferPhase, ih (transferStep clock ok s it)]
    cases h : ok it.1 <;> simp [transferStep, h]

theorem transferPhase_total_size (clock : Nat → ℚ) (ok : Str → Bool)
    (items : List (Str × TransferInfo)) :
    ∀ s : ProgressTracker × Nat,
      (transferPhase clock ok s items).1.total_size = s.1.total_size := by
  induction items with
  | nil => intro s; rfl
  | cons it rest ih =>
    intro s
    rw [transferPhase, ih (transferStep clock ok s it)]
    cases h : ok it.1 <;> simp [transferStep, h]

theorem transferPhase_skipped_files (clock : Nat → ℚ) (ok : Str → Bool)
    (items : List (Str × TransferInfo)) :
    ∀ s : ProgressTracker × Nat,
      (transferPhase clock ok s items).1.skipped_files = s.1.skipped_files := by
  induction items with
  | nil => intro s; rfl
  | cons it rest ih =>
    intro s
    rw [transferPhase, ih (transferStep clock ok s it)]
    cases h : ok it.1 <;> simp [transferStep, h]

theorem transferPhase_skipped_size (clock : Nat → ℚ) (ok : Str → Bool)
    (items : List (Str × TransferInfo)) :
    ∀ s : ProgressTracker × Nat,
      (transferPhase clock ok s items).1.skipped_size = s.1.skipped_size := by
  induction items with
  | nil => intro s; rfl
  | cons it rest ih =>
    intro s
    rw [transferPhase, ih (transferStep clock ok s it)]
    cases h : ok it.1 <;> simp [transferStep, h]

theorem transferPhase_processed_files (clock : Nat → ℚ) (ok : Str → Bool)
    (items : List (Str × TransferInfo)) :
    ∀ s : ProgressTracker × Nat,
      (transferPhase clock ok s items).1.processed_files =
        s.1.processed_files + okCount ok items := by
  induction items with
  | nil => intro s; simp [transferPhase, okCount]
  | cons it rest ih =>
    intro s
    rw [transferPhase, ih (transferStep clock ok s it)]
    cases h : ok it.1 <;>
      simp [transferStep, h, okCount, List.filter_cons] <;> omega

theorem transferPhase_failed_files (clock : Nat → ℚ) (ok : Str → Bool)
    (items : List (Str × TransferInfo)) :
    ∀ s : ProgressTracker × Nat,
      (transferPhase clock ok s items).1.failed_files =
        s.1.failed_files ++ failedKeys ok items := by
  induction items with
  | nil => intro s; simp [transferPhase, failedKeys]
  | cons it rest ih =>
    intro s
    rw [transferPhase, ih (transferStep clock ok s it)]
    cases h : ok it.1 <;>
      simp [transferStep, h, failedKeys, List.filter_cons]

theorem skipTrace_mem {t u : ProgressTracker} {ex : List (Str × ExistInfo)}
    (h : u ∈ skipTrace t ex) :
    ∃ e1 e2, ex = e1 ++ e2 ∧ u = skipPhase t e1 := by
  induction ex generalizing t with
  | nil => simp [skipTrace] at h
  | cons e rest ih =>
    simp only [skipTrace, List.mem_cons] at h
    rcases h with h | h
    · exact ⟨[e], rest, rfl, h⟩
    · obtain ⟨e1, e2, he, hu⟩ := ih h
      exact ⟨e :: e1, e2, by simp [he], hu⟩

theorem transferTrace_mem {clock : Nat → ℚ} {ok : Str → Bool}
    {s : ProgressTracker × Nat} {u : ProgressTracker}
    {items : List (Str × TransferInfo)}
    (h : u ∈ transferTrace clock ok s items) :
    ∃ i1 i2, items = i1 ++ i2 ∧ u = (transferPhase clock ok s i1).1 := by
  induction items generalizing s with
  | nil => simp [transferTrace] at h
  | cons it rest ih =>
    simp only [transferTrace, List.mem_cons] at h
    rcases h with h | h
    · exact ⟨[it], rest, rfl, h⟩
    · obtain ⟨i1, i2, hi, hu⟩ := ih h
      exact ⟨it :: i1, i2, by simp [hi], hu⟩

theorem analyze_length (source dest : List (Str × ObjInfo)) :
    (analyze_transfer_needs source dest).1.length +
      (analyze_transfer_needs source dest).2.1.length = source.length := by
  induction source with
  | nil => rfl
  | cons p rest ih =>
    obtain ⟨rel, info⟩ := p
    simp only [analyze_transfer_needs]
    cases h : dictGet dest rel with
    | none => simp only [h, List.length_cons]; omega
    | some d =>
      simp only [h]
      split
      · simp only [List.length_cons]; omega
      · simp only [List.length_cons]; omega

theorem applyUpdates_counts (events : List (Nat × ℚ)) :
    ∀ t : ProgressTracker,
      (applyUpdates t events).processed_files =
        t.processed_files + events.length ∧
      (applyUpdates t events).processed_size =
        t.processed_size + (events.map Prod.fst).sum := by
  induction events with
  | nil => intro t; simp [applyUpdates]
  | cons e rest ih =>
    intro t
    obtain ⟨sz, n⟩ := e
    have h := ih (t.update sz n)
    constructor
    · rw [applyUpdates, h.1]; simp; omega
    · rw [applyUpdates, h.2]; simp; omega

/-- One status-histogram recording applied to the histogram. -/
def statusBump (f : TransferStatus → Nat) (st : TransferStatus) :
    TransferStatus → Nat :=
  fun s => if s = st then f s + 1 else f s

theorem status_counts_as_statusBump (t : ProgressTracker)
    (st : TransferStatus) :
    (t.update_status_count st).status_counts = statusBump t.status_counts st :=
  rfl

/-- The final path component of a key: the part after the last '/'. -/
def basenameOf (key : Str) : Str :=
  (key.reverse.takeWhile (fun c => c ≠ '/')).reverse

/-- The file extension in the sense of the specification's words ("keyed by
lowercased extension or a sentinel for extensionless files"): the lowercased
segment of the file's basename after its final dot, or `none` when the
basename contains no dot (an extensionless file). -/
def spec_file_extension (key : Str) : Option Str :=
  let base := basenameOf key
  if '.' ∈ base then
    some ((base.reverse.takeWhile (fun c => c ≠ '.')).reverse.map Char.toLower)
  else none

/-! ### Claim theorems -/

/-- Claim C3, counterexample: the claim says the code "strips exactly one
leading path separator if one is present", but `get_relative_path` ends in
`key.lstrip("/")`, which strips every leading separator: on key "//a" with an
empty prefix the result is "a", whereas stripping exactly one separator would
give "/a". -/
theorem C3_counterexample :
    get_relative_path (str "//a") (str "") = str "a" ∧
    get_relative_path (str "//a") (str "") ≠ str "/a" := by decide

/-- Claim C3, amended: `get_relative_path` strips the prefix from the key when
the key starts with the non-empty prefix and otherwise leaves the key
unchanged, then strips EVERY leading path separator (not exactly one), so the
result never begins with a separator; it is idempotent: applying it with an
empty prefix to an already-relative path returns that path unchanged. -/
theorem C3_relative_path (key pfx : Str) :
    (pfx ≠ [] → pfx <+: key →
      get_relative_path key pfx =
        (key.drop pfx.length).dropWhile (· == '/')) ∧
    (¬ pfx <+: key →
      get_relative_path key pfx = key.dropWhile (· == '/')) ∧
    (pfx = [] → get_relative_path key pfx = key.dropWhile (· == '/')) ∧
    (∀ c, (get_relative_path key pfx).head? = some c → c ≠ '/') ∧
    get_relative_path (get_relative_path key pfx) [] =
      get_relative_path key pfx := by
  refine ⟨?_, ?_, ?_, ?_, ?_⟩
  · intro h1 h2; simp [get_relative_path, h1, h2]
  · intro h; simp [get_relative_path, h]
  · intro h; simp [get_relative_path, h]
  · intro c hc
    simp only [get_relative_path] at hc
    have := dropWhile_head_not (· == '/') hc
    simpa using this
  · simp [get_relative_path, dropWhile_idem]

/-- Witness for C3_relative_path on key "p///x.txt" with prefix "p". -/
theorem C3_relative_path_witness :
    get_relative_path (str "p///x.txt") (str "p") =
      ((str "p///x.txt").drop (str "p").length).dropWhile (· == '/') ∧
    get_relative_path (get_relative_path (str "p///x.txt") (str "p")) [] =
      get_relative_path (str "p///x.txt") (str "p") :=
  ⟨(C3_relative_path (str "p///x.txt") (str "p")).1 (by decide) (by decide),
    (C3_relative_path (str "p///x.txt") (str "p")).2.2.2.2⟩

/-- Claim C9, counterexample: the claim says each recorded object is keyed by
"its lowercased file extension, using a single sentinel key for files without
an extension", but the code takes the segment after the last dot anywhere in
the full key.  The key "a.b/c" names an extensionless file (basename "c"),
yet recording it bumps bucket "b/c" and not the sentinel bucket. -/
theorem C9_counterexample :
    spec_file_extension (str "a.b/c") = none ∧
    extKey (str "a.b/c") = str "b/c" ∧
    ((initTracker 0).update_extension_stats (str "a.b/c") 5).extension_stats
        (str "no_extension") = (0, 0) ∧
    ((initTracker 0).update_extension_stats (str "a.b/c") 5).extension_stats
        (str "b/c") = (1, 5) := by decide

/-- Claim C9, amended: `update_extension_stats` keys each recorded object by
the lowercased segment after the last dot anywhere in the full key (which is
the lowercased file extension whenever the final path component contains the
dot), with the single sentinel key "no_extension" when the key contains no
dot; each recording increments exactly one bucket's count by one and its size
by the object's size, leaving every other bucket unchanged. -/
theorem C9_extension_stats (t : ProgressTracker) (key : Str) (size : Nat) :
    ((t.update_extension_stats key size).extension_stats (extKey key) =
      ((t.extension_stats (extKey key)).1 + 1,
        (t.extension_stats (extKey key)).2 + size)) ∧
    (∀ e, e ≠ extKey key →
      (t.update_extension_stats key size).extension_stats e =
        t.extension_stats e) ∧
    ('.' ∈ key →
      extKey key =
        ((key.reverse.takeWhile (fun c => c ≠ '.')).reverse).map
          Char.toLower) ∧
    ('.' ∉ key → extKey key = str "no_extension") := by
  refine ⟨?_, ?_, ?_, ?_⟩
  · simp [ext_stats_apply]
  · intro e he; simp [ext_stats_apply, he]
  · intro h; simp [extKey, h]
  · intro h; simp [extKey, h]

/-- Witness for C9_extension_stats on key "x.TXT" of size 7. -/
theorem C9_extension_stats_witness :
    ((initTracker 0).update_extension_stats (str "x.TXT") 7).extension_stats
        (str "txt") = (1, 7) ∧
    ((initTracker 0).update_extension_stats (str "x.TXT") 7).extension_stats
        (str "jpg") = (0, 0) := by
  have h := C9_extension_stats (initTracker 0) (str "x.TXT") 7
  have he : extKey (str "x.TXT") = str "txt" := by decide
  refine ⟨?_, ?_⟩
  · have h1 := h.1
    rw [he] at h1
    exact h1.trans (by decide)
  · exact (h.2.1 (str "jpg") (by decide)).trans (by decide)

/-- Claim C8, counterexample: the claim says a snapshot "reports throughput as
processed bytes divided by elapsed seconds", but `get_progress_stats` echoes
the `current_speed` stored by the last `update` call.  After one object of
100 bytes recorded at elapsed 1s, a snapshot taken at elapsed 2s still
reports speed 100, not 100/2. -/
theorem C8_counterexample :
    (((initTracker 0).update 100 1).get_progress_stats 2).speed ≠
      ((((initTracker 0).update 100 1).get_progress_stats 2).processed_size :
          ℚ) /
        (((initTracker 0).update 100 1).get_progress_stats 2).elapsed := by
  simp only [ProgressTracker.get_progress_stats, ProgressTracker.update,
    initTracker]
  norm_num

/-- Claim C8, amended: the tracker's throughput is processed bytes divided by
the elapsed seconds of the last transfer-recording `update` (left unchanged —
hence zero from construction — when that update's elapsed time is not
positive), and a snapshot reports exactly this stored throughput; the
estimated time remaining is (total − processed − skipped) bytes divided by
the current throughput, reported as the unknown sentinel whenever the
throughput is zero; both divisions are guarded by positivity of their
divisor, so neither derivation divides by zero. -/
theorem C8_stats (t : ProgressTracker) (file_size : Nat) (now snap st : ℚ) :
    (t.start_time < now →
      (t.update file_size now).current_speed =
        ((t.processed_size + file_size : Nat) : ℚ) / (now - t.start_time)) ∧
    (now ≤ t.start_time →
      (t.update file_size now).current_speed = t.current_speed) ∧
    (now ≤ st → ((initTracker st).update file_size now).current_speed = 0) ∧
    ((t.get_progress_stats snap).speed = t.current_speed) ∧
    (0 < t.current_speed →
      (t.get_progress_stats snap).eta_seconds =
        ((t.total_size : ℚ) - t.processed_size - t.skipped_size) /
          t.current_speed) ∧
    (t.current_speed ≤ 0 →
      (t.get_progress_stats snap).eta_seconds = 0 ∧
      (t.get_progress_stats snap).eta = none) ∧
    ((t.get_progress_stats snap).elapsed = snap - t.start_time) := by
  refine ⟨?_, ?_, ?_, rfl, ?_, ?_, rfl⟩
  · intro h
    rw [update_current_speed, if_pos (by linarith : (0 : ℚ) < now - t.start_time)]
  · intro h
    rw [update_current_speed,
      if_neg (by simp only [not_lt]; linarith : ¬ (0 : ℚ) < now - t.start_time)]
  · intro h
    rw [update_current_speed,
      if_neg (by simp only [initTracker, not_lt]; linarith :
        ¬ (0 : ℚ) < now - (initTracker st).start_time)]
    rfl
  · intro h
    simp [ProgressTracker.get_progress_stats, h]
  · intro h
    have hn : ¬ 0 < t.current_speed := not_lt.mpr h
    constructor
    · simp [ProgressTracker.get_progress_stats, hn]
    · simp [ProgressTracker.get_progress_stats, hn]

/-- Witness for C8_stats: one 10-byte update at elapsed 2s yields speed 5;
a fresh tracker reports the unknown-ETA sentinel. -/
theorem C8_stats_witness :
    ((initTracker 0).update 10 2).current_speed = 5 ∧
    ((initTracker 0).get_progress_stats 5).eta = none := by
  have h := C8_stats (initTracker 0) 10 2 5 0
  constructor
  · rw [h.1 (by norm_num [initTracker])]
    norm_num [initTracker]
  · exact (h.2.2.2.2.2.1 (by norm_num [initTracker])).2

/-- Claim C4: under the tracker's lock discipline every `update` call is one
atomic step, so any interleaving of N calls with sizes s_1..s_N is some
permutation of them applied in sequence; the result has exactly N more
processed files and exactly the sum of the sizes more processed bytes — no
increment is lost — and a snapshot taken between any two calls (a reader also
holds the lock, so it sees the state after some prefix of the calls) reports
the processed counters of exactly that prefix, never a torn value. -/
theorem C4_no_lost_updates (t : ProgressTracker) (events : List (Nat × ℚ))
    (sizes : List Nat) (hperm : List.Perm (events.map Prod.fst) sizes) :
    (applyUpdates t events).processed_files =
      t.processed_files + sizes.length ∧
    (applyUpdates t events).processed_size = t.processed_size + sizes.sum ∧
    ∀ snap : ℚ, ∀ k, k ≤ events.length →
      ((applyUpdates t (events.take k)).get_progress_stats snap).processed =
          t.processed_files + k ∧
      ((applyUpdates t
          (events.take k)).get_progress_stats snap).processed_size =
        t.processed_size + ((events.take k).map Prod.fst).sum := by
  refine ⟨?_, ?_, ?_⟩
  · rw [(applyUpdates_counts events t).1, hperm.length_eq.symm,
      List.length_map]
  · rw [(applyUpdates_counts events t).2, hperm.sum_eq]
  · intro snap k hk
    refine ⟨?_, ?_⟩
    · show (applyUpdates t (events.take k)).processed_files = _
      rw [(applyUpdates_counts (events.take k) t).1, List.length_take,
        Nat.min_eq_left hk]
    · show (applyUpdates t (events.take k)).processed_size = _
      rw [(applyUpdates_counts (events.take k) t).2]

/-- Witness for C4_no_lost_updates: three updates of sizes 1, 2, 3 (in any
order, here compared against the permutation [3, 1, 2]) yield exactly 3
processed files and 6 processed bytes. -/
theorem C4_no_lost_updates_witness :
    (applyUpdates (initTracker 0) [(1, 1), (2, 2), (3, 3)]).processed_files =
      3 ∧
    (applyUpdates (initTracker 0) [(1, 1), (2, 2), (3, 3)]).processed_size =
      6 := by
  have h := C4_no_lost_updates (initTracker 0) [(1, 1), (2, 2), (3, 3)]
    [3, 1, 2] (by decide)
  exact ⟨h.1.trans (by decide), h.2.1.trans (by decide)⟩

/-- Claim C10: every `ProgressTracker` mutator modifies only its designated
fields and leaves all others unchanged, and no operation modifies
`start_time` after construction. -/
theorem C10_frame (t : ProgressTracker) (file_size count size fsize : Nat)
    (now : ℚ) (fkey ekey : Str) (status : TransferStatus) :
    ((t.update file_size now).start_time = t.start_time ∧
      (t.update file_size now).total_files = t.total_files ∧
      (t.update file_size now).total_size = t.total_size ∧
      (t.update file_size now).failed_files = t.failed_files ∧
      (t.update file_size now).extension_stats = t.extension_stats ∧
      (t.update file_size now).skipped_files = t.skipped_files ∧
      (t.update file_size now).skipped_size = t.skipped_size ∧
      (t.update file_size now).status_counts = t.status_counts ∧
      (t.update file_size now).processed_files = t.processed_files + 1 ∧
      (t.update file_size now).processed_size =
        t.processed_size + file_size) ∧
    ((t.add_total count size).start_time = t.start_time ∧
      (t.add_total count size).processed_files = t.processed_files ∧
      (t.add_total count size).processed_size = t.processed_size ∧
      (t.add_total count size).current_speed = t.current_speed ∧
      (t.add_total count size).failed_files = t.failed_files ∧
      (t.add_total count size).extension_stats = t.extension_stats ∧
      (t.add_total count size).skipped_files = t.skipped_files ∧
      (t.add_total count size).skipped_size = t.skipped_size ∧
      (t.add_total count size).status_counts = t.status_counts ∧
      (t.add_total count size).total_files = count ∧
      (t.add_total count size).total_size = size) ∧
    ((t.add_failed fkey).start_time = t.start_time ∧
      (t.add_failed fkey).total_files = t.total_files ∧
      (t.add_failed fkey).total_size = t.total_size ∧
      (t.add_failed fkey).processed_files = t.processed_files ∧
      (t.add_failed fkey).processed_size = t.processed_size ∧
      (t.add_failed fkey).current_speed = t.current_speed ∧
      (t.add_failed fkey).extension_stats = t.extension_stats ∧
      (t.add_failed fkey).skipped_files = t.skipped_files ∧
      (t.add_failed fkey).skipped_size = t.skipped_size ∧
      (t.add_failed fkey).status_counts = t.status_counts ∧
      (t.add_failed fkey).failed_files = t.failed_files ++ [fkey]) ∧
    ((t.add_skipped fsize).start_time = t.start_time ∧
      (t.add_skipped fsize).total_files = t.total_files ∧
      (t.add_skipped fsize).total_size = t.total_size ∧
      (t.add_skipped fsize).processed_files = t.processed_files ∧
      (t.add_skipped fsize).processed_size = t.processed_size ∧
      (t.add_skipped fsize).current_speed = t.current_speed ∧
      (t.add_skipped fsize).failed_files = t.failed_files ∧
      (t.add_skipped fsize).extension_stats = t.extension_stats ∧
      (t.add_skipped fsize).status_counts = t.status_counts ∧
      (t.add_skipped fsize).skipped_files = t.skipped_files + 1 ∧
      (t.add_skipped fsize).skipped_size = t.skipped_size + fsize) ∧
    ((t.update_status_count status).start_time = t.start_time ∧
      (t.update_status_count status).total_files = t.total_files ∧
      (t.update_status_count status).total_size = t.total_size ∧
      (t.update_status_count status).processed_files = t.processed_files ∧
      (t.update_status_count status).processed_size = t.processed_size ∧
      (t.update_status_count status).current_speed = t.current_speed ∧
      (t.update_status_count status).failed_files = t.failed_files ∧
      (t.update_status_count status).extension_stats = t.extension_stats ∧
      (t.update_status_count status).skipped_files = t.skipped_files ∧
      (t.update_status_count status).skipped_size = t.skipped_size ∧
      (t.update_status_count status).status_counts status =
        t.status_counts status + 1 ∧
      (∀ s, s ≠ status →
        (t.update_status_count status).status_counts s =
          t.status_counts s)) ∧
    ((t.update_extension_stats ekey fsize).start_time = t.start_time ∧
      (t.update_extension_stats ekey fsize).total_files = t.total_files ∧
      (t.update_extension_stats ekey fsize).total_size = t.total_size ∧
      (t.update_extension_stats ekey fsize).processed_files =
        t.processed_files ∧
      (t.update_extension_stats ekey fsize).processed_size =
        t.processed_size ∧
      (t.update_extension_stats ekey fsize).current_speed =
        t.current_speed ∧
      (t.update_extension_stats ekey fsize).failed_files = t.failed_files ∧
      (t.update_extension_stats ekey fsize).skipped_files =
        t.skipped_files ∧
      (t.update_extension_stats ekey fsize).skipped_size =
        t.skipped_size ∧
      (t.update_extension_stats ekey fsize).status_counts =
        t.status_counts ∧
      (t.update_extension_stats ekey fsize).extension_stats (extKey ekey) =
        ((t.extension_stats (extKey ekey)).1 + 1,
          (t.extension_stats (extKey ekey)).2 + fsize) ∧
      (∀ e, e ≠ extKey ekey →
        (t.update_extension_stats ekey fsize).extension_stats e =
          t.extension_stats e)) := by
  refine ⟨⟨rfl, rfl, rfl, rfl, rfl, rfl, rfl, rfl, rfl, rfl⟩,
    ⟨rfl, rfl, rfl, rfl, rfl, rfl, rfl, rfl, rfl, rfl, rfl⟩,
    ⟨rfl, rfl, rfl, rfl, rfl, rfl, rfl, rfl, rfl, rfl, rfl⟩,
    ⟨rfl, rfl, rfl, rfl, rfl, rfl, rfl, rfl, rfl, rfl, rfl⟩,
    ⟨rfl, rfl, rfl, rfl, rfl, rfl, rfl, rfl, rfl, rfl, ?_, ?_⟩,
    ⟨rfl, rfl, rfl, rfl, rfl, rfl, rfl, rfl, rfl, rfl, ?_, ?_⟩⟩
  · simp [status_count_apply]
  · intro s hs; simp [status_count_apply, hs]
  · simp [ext_stats_apply]
  · intro e he; simp [ext_stats_apply, he]

/-- Witness for C10_frame at a concrete tracker state and concrete
arguments. -/
theorem C10_frame_witness :
    ((initTracker 0).update 4 1).total_files = (initTracker 0).total_files ∧
    ((initTracker 0).update_status_count TransferStatus.NEW).status_counts
        TransferStatus.EXISTING =
      (initTracker 0).status_counts TransferStatus.EXISTING ∧
    ((initTracker 0).update_extension_stats (str "a.txt") 2).extension_stats
        (str "jpg") = (initTracker 0).extension_stats (str "jpg") := by
  have h := C10_frame (initTracker 0) 4 1 1 2 1 (str "f") (str "a.txt")
    TransferStatus.NEW
  obtain ⟨h1, _, _, _, h5, h6⟩ := h
  exact ⟨h1.2.1,
    h5.2.2.2.2.2.2.2.2.2.2.2 TransferStatus.EXISTING (by decide),
    h6.2.2.2.2.2.2.2.2.2.2.2 (str "jpg") (by decide)⟩

/-- Whether a source record is classified for transfer (NEW or UPDATED)
rather than as already existing. -/
def needsTransfer (dest : List (Str × ObjInfo)) (p : Str × ObjInfo) : Bool :=
  match dictGet dest p.1 with
  | none => true
  | some d =>
    decide (p.2.etag ≠ d.etag) || decide (d.last_modified < p.2.last_modified)

theorem analyze_cons_toT (rel0 : Str) (info0 : ObjInfo)
    (rest dest : List (Str × ObjInfo)) :
    (analyze_transfer_needs ((rel0, info0) :: rest) dest).1 =
      (match dictGet dest rel0 with
        | none =>
          [(info0.full_key,
            (⟨info0.size, none, TransferStatus.NEW⟩ : TransferInfo))]
        | some d0 =>
          if info0.etag ≠ d0.etag ∨
              d0.last_modified < info0.last_modified then
            [(info0.full_key,
              (⟨info0.size, some d0.full_key,
                TransferStatus.UPDATED⟩ : TransferInfo))]
          else []) ++ (analyze_transfer_needs rest dest).1 := by
  cases hd0 : dictGet dest rel0 with
  | none => simp [analyze_transfer_needs, hd0]
  | some d0 =>
    simp only [analyze_transfer_needs, hd0]
    split <;> simp

theorem analyze_cons_ex (rel0 : Str) (info0 : ObjInfo)
    (rest dest : List (Str × ObjInfo)) :
    (analyze_transfer_needs ((rel0, info0) :: rest) dest).2.1 =
      (match dictGet dest rel0 with
        | none => []
        | some d0 =>
          if info0.etag ≠ d0.etag ∨
              d0.last_modified < info0.last_modified then []
          else
            [(info0.full_key,
              (⟨info0.size, d0.full_key⟩ : ExistInfo))]) ++
        (analyze_transfer_needs rest dest).2.1 := by
  cases hd0 : dictGet dest rel0 with
  | none => simp [analyze_transfer_needs, hd0]
  | some d0 =>
    simp only [analyze_transfer_needs, hd0]
    split <;> simp

theorem analyze_cons_tn (rel0 : Str) (info0 : ObjInfo)
    (rest dest : List (Str × ObjInfo)) :
    (analyze_transfer_needs ((rel0, info0) :: rest) dest).2.2.1 =
      (analyze_transfer_needs rest dest).2.2.1 +
        (if needsTransfer dest (rel0, info0) then info0.size else 0) := by
  cases hd0 : dictGet dest rel0 with
  | none => simp [analyze_transfer_needs, hd0, needsTransfer]
  | some d0 =>
    simp only [analyze_transfer_needs, hd0, needsTransfer]
    by_cases hc : info0.etag ≠ d0.etag ∨
        d0.last_modified < info0.last_modified
    · rw [if_pos hc]
      simp [hc]
    · rw [if_neg hc]
      push_neg at hc
      simp [hc.1, not_lt.mpr hc.2]

theorem analyze_cons_te (rel0 : Str) (info0 : ObjInfo)
    (rest dest : List (Str × ObjInfo)) :
    (analyze_transfer_needs ((rel0, info0) :: rest) dest).2.2.2 =
      (analyze_transfer_needs rest dest).2.2.2 +
        (if needsTransfer dest (rel0, info0) then 0 else info0.size) := by
  cases hd0 : dictGet dest rel0 with
  | none => simp [analyze_transfer_needs, hd0, needsTransfer]
  | some d0 =>
    simp only [analyze_transfer_needs, hd0, needsTransfer]
    by_cases hc : info0.etag ≠ d0.etag ∨
        d0.last_modified < info0.last_modified
    · rw [if_pos hc]
      simp [hc]
    · rw [if_neg hc]
      push_neg at hc
      simp [hc.1, not_lt.mpr hc.2]

/-- Every entry of the transfer plan is either NEW with no carried destination
key, or UPDATED carrying the full key of a record of the destination
listing. -/
theorem analyze_toT_entry (source dest : List (Str × ObjInfo)) :
    ∀ k info, (k, info) ∈ (analyze_transfer_needs source dest).1 →
      (info.status = TransferStatus.NEW ∧ info.dest_key = none) ∨
      (info.status = TransferStatus.UPDATED ∧
        ∃ rel d, (rel, d) ∈ dest ∧ info.dest_key = some d.full_key) := by
  induction source with
  | nil => intro k info h; simp [analyze_transfer_needs] at h
  | cons p rest ih =>
    obtain ⟨rel0, info0⟩ := p
    intro k info h
    rw [analyze_cons_toT] at h
    rcases List.mem_append.mp h with h | h
    · cases hd0 : dictGet dest rel0 with
      | none =>
        simp only [hd0, List.mem_singleton, Prod.mk.injEq] at h
        left
        rw [h.2]
        exact ⟨rfl, rfl⟩
      | some d0 =>
        simp only [hd0] at h
        by_cases hc : info0.etag ≠ d0.etag ∨
            d0.last_modified < info0.last_modified
        · rw [if_pos hc] at h
          simp only [List.mem_singleton, Prod.mk.injEq] at h
          right
          rw [h.2]
          exact ⟨rfl, rel0, d0, dictGet_mem hd0, rfl⟩
        · rw [if_neg hc] at h
          simp at h
    · exact ih k info h

/-- Claim C1: `analyze_transfer_needs` classifies each source record by its
relative path: absent from the destination listing → a NEW plan entry with no
resolved destination key; present with differing fingerprint OR strictly newer
source modification time → an UPDATED entry carrying the destination record's
full key (fingerprint mismatch suffices regardless of timestamps); present
with identical fingerprint and non-newer source time → an EXISTING entry.
`totalNewBytes` sums the sizes of exactly the NEW/UPDATED records and
`totalExistingBytes` the sizes of exactly the EXISTING records. -/
theorem C1_classification (source dest : List (Str × ObjInfo)) :
    (∀ rel info, (rel, info) ∈ source →
      (dictGet dest rel = none →
        (info.full_key,
          (⟨info.size, none, TransferStatus.NEW⟩ : TransferInfo)) ∈
            (analyze_transfer_needs source dest).1) ∧
      (∀ d, dictGet dest rel = some d →
        info.etag ≠ d.etag ∨ d.last_modified < info.last_modified →
        (info.full_key,
          (⟨info.size, some d.full_key,
            TransferStatus.UPDATED⟩ : TransferInfo)) ∈
              (analyze_transfer_needs source dest).1) ∧
      (∀ d, dictGet dest rel = some d → info.etag = d.etag →
        ¬ d.last_modified < info.last_modified →
        (info.full_key, (⟨info.size, d.full_key⟩ : ExistInfo)) ∈
          (analyze_transfer_needs source dest).2.1)) ∧
    (analyze_transfer_needs source dest).2.2.1 =
      ((source.filter (needsTransfer dest)).map (fun p => p.2.size)).sum ∧
    (analyze_transfer_needs source dest).2.2.2 =
      ((source.filter (fun p => !needsTransfer dest p)).map
        (fun p => p.2.size)).sum := by
  induction source with
  | nil => exact ⟨by simp, rfl, rfl⟩
  | cons p rest ih =>
    obtain ⟨rel0, info0⟩ := p
    obtain ⟨ihm, ihn, ihe⟩ := ih
    refine ⟨?_, ?_, ?_⟩
    · intro rel info hmem
      rcases List.mem_cons.mp hmem with heq | hrest
      · rw [Prod.mk.injEq] at heq
        obtain ⟨rfl, rfl⟩ := heq
        refine ⟨?_, ?_, ?_⟩
        · intro h
          simp [analyze_cons_toT, h]
        · intro d hd hcond
          simp [analyze_cons_toT, hd, hcond]
        · intro d hd heq2 hnlt
          simp [analyze_cons_ex, hd, heq2, hnlt]
      · have h3 := ihm rel info hrest
        refine ⟨?_, ?_, ?_⟩
        · intro h
          rw [analyze_cons_toT]
          exact List.mem_append_right _ (h3.1 h)
        · intro d hd hcond
          rw [analyze_cons_toT]
          exact List.mem_append_right _ (h3.2.1 d hd hcond)
        · intro d hd heq2 hnlt
          rw [analyze_cons_ex]
          exact List.mem_append_right _ (h3.2.2 d hd heq2 hnlt)
    · rw [analyze_cons_tn, ihn]
      cases hnt : needsTransfer dest (rel0, info0) <;>
        simp [List.filter_cons, hnt] <;> omega
    · rw [analyze_cons_te, ihe]
      cases hnt : needsTransfer dest (rel0, info0) <;>
        simp [List.filter_cons, hnt] <;> omega

/-- Witness for C1_classification: a single source object absent from an
empty destination listing yields a NEW plan entry. -/
theorem C1_classification_witness :
    (str "a", (⟨5, none, TransferStatus.NEW⟩ : TransferInfo)) ∈
      (analyze_transfer_needs [(str "a", ⟨str "a", 5, str "x", 0⟩)] []).1 :=
  ((C1_classification [(str "a", ⟨str "a", 5, str "x", 0⟩)] []).1 (str "a")
    ⟨str "a", 5, str "x", 0⟩ (by decide)).1 rfl

/-- Claim C7: for each plan entry executed by the transfer loop, the
destination key used for the copy is the carried destination full key whenever
one is present — which happens exactly for UPDATED entries — and otherwise
(exactly for NEW entries) the destination prefix joined with the object's
relative path under the source prefix, the relative path alone when the
destination prefix is empty.  The carried key originates from a destination
listing record, whose full key is non-empty (object-store keys are never
empty), so Python's truthiness test on it succeeds; and when the destination
prefix ends in a separator, joining is plain concatenation. -/
theorem C7_dest_key (source dest : List (Str × ObjInfo))
    (src_pfx dst_pfx : Str)
    (hkeys : ∀ p ∈ dest, p.2.full_key ≠ []) :
    ∀ k info, (k, info) ∈ (analyze_transfer_needs source dest).1 →
      (∀ d, info.dest_key = some d →
        info.status = TransferStatus.UPDATED ∧
        resolveDestKey src_pfx dst_pfx k info = d) ∧
      (info.dest_key = none →
        info.status = TransferStatus.NEW ∧
        resolveDestKey src_pfx dst_pfx k info =
          (if dst_pfx = [] then get_relative_path k src_pfx
            else osPathJoin dst_pfx (get_relative_path k src_pfx))) ∧
      (dst_pfx.getLast? = some '/' →
        osPathJoin dst_pfx (get_relative_path k src_pfx) =
          dst_pfx ++ get_relative_path k src_pfx) := by
  intro k info hmem
  have hshape := analyze_toT_entry source dest k info hmem
  refine ⟨?_, ?_, ?_⟩
  · intro d hd
    rcases hshape with ⟨_, hnone⟩ | ⟨hst, rel0, d0, hd0mem, hdk⟩
    · rw [hnone] at hd; cases hd
    · refine ⟨hst, ?_⟩
      rw [hdk] at hd
      injection hd with hdd
      subst hdd
      have hne : d0.full_key ≠ [] := hkeys (rel0, d0) hd0mem
      simp [resolveDestKey, hdk, hne]
  · intro hd
    rcases hshape with ⟨hst, hnone⟩ | ⟨hst, rel0, d0, hd0mem, hdk⟩
    · refine ⟨hst, ?_⟩
      by_cases hp : dst_pfx = [] <;> simp [resolveDestKey, hd, hp]
    · rw [hdk] at hd; cases hd
  · intro hlast
    have hh : ¬ (get_relative_path k src_pfx).head? = some '/' := by
      intro hcon
      simp only [get_relative_path] at hcon
      have := dropWhile_head_not (· == '/') hcon
      simp at this
    unfold osPathJoin
    rw [if_neg hh, if_pos (Or.inr hlast)]

/-- Witness for C7_dest_key: an UPDATED entry reuses the carried destination
key, and joining a slash-terminated destination prefix is concatenation. -/
theorem C7_dest_key_witness :
    resolveDestKey (str "s/") (str "d/") (str "s/f")
        (⟨3, some (str "d/f"), TransferStatus.UPDATED⟩ : TransferInfo) =
      str "d/f" ∧
    osPathJoin (str "d/") (get_relative_path (str "s/f") (str "s/")) =
      str "d/" ++ get_relative_path (str "s/f") (str "s/") := by
  have h := C7_dest_key [(str "f", ⟨str "s/f", 3, str "x", 0⟩)]
    [(str "f", ⟨str "d/f", 3, str "y", 0⟩)] (str "s/") (str "d/")
    (by decide) (str "s/f")
    (⟨3, some (str "d/f"), TransferStatus.UPDATED⟩ : TransferInfo)
    (by decide)
  exact ⟨(h.1 (str "d/f") rfl).2, h.2.2 (by decide)⟩

/-- Claim C5: in a transfer phase over three plan entries where the storage
calls for the second object fail with a `ClientError` and the other two
succeed, the loop runs to completion (the third entry is still processed):
the final state has exactly 2 processed files, the failure list is exactly
the one-element list holding the second object's source key, and the
processed/extension/status counters are exactly those of the same run without
the failing entry — the failed object updates none of them. -/
theorem C5_failure_isolation (clock : Nat → ℚ) (ok : Str → Bool)
    (t : ProgressTracker) (e1 e2 e3 : Str × TransferInfo)
    (h1 : ok e1.1 = true) (h2 : ok e2.1 = false) (h3 : ok e3.1 = true)
    (hp : t.processed_files = 0) (hf : t.failed_files = []) :
    (transferPhase clock ok (t, 0) [e1, e2, e3]).1.processed_files = 2 ∧
    (transferPhase clock ok (t, 0) [e1, e2, e3]).1.failed_files = [e2.1] ∧
    (transferPhase clock ok (t, 0) [e1, e2, e3]).1.extension_stats =
      (transferPhase clock ok (t, 0) [e1, e3]).1.extension_stats ∧
    (transferPhase clock ok (t, 0) [e1, e2, e3]).1.status_counts =
      (transferPhase clock ok (t, 0) [e1, e3]).1.status_counts ∧
    (transferPhase clock ok (t, 0) [e1, e2, e3]).1.processed_size =
      (transferPhase clock ok (t, 0) [e1, e3]).1.processed_size := by
  refine ⟨?_, ?_, ?_, ?_, ?_⟩ <;>
    simp [transferPhase, transferStep, h1, h2, h3, hp, hf,
      ext_stats_as_extBump, status_counts_as_statusBump]

/-- Witness for C5_failure_isolation on three concrete entries where the
storage calls fail exactly on key "b". -/
theorem C5_failure_isolation_witness :
    (transferPhase (fun _ => 1) (fun k => decide (k ≠ str "b"))
        ((initTracker 0), 0)
        [(str "a", ⟨1, none, TransferStatus.NEW⟩),
          (str "b", ⟨2, none, TransferStatus.NEW⟩),
          (str "c", ⟨3, none, TransferStatus.NEW⟩)]).1.processed_files = 2 ∧
    (transferPhase (fun _ => 1) (fun k => decide (k ≠ str "b"))
        ((initTracker 0), 0)
        [(str "a", ⟨1, none, TransferStatus.NEW⟩),
          (str "b", ⟨2, none, TransferStatus.NEW⟩),
          (str "c", ⟨3, none, TransferStatus.NEW⟩)]).1.failed_files =
      [str "b"] := by
  have h := C5_failure_isolation (fun _ => 1)
    (fun k => decide (k ≠ str "b")) (initTracker 0)
    (str "a", ⟨1, none, TransferStatus.NEW⟩)
    (str "b", ⟨2, none, TransferStatus.NEW⟩)
    (str "c", ⟨3, none, TransferStatus.NEW⟩)
    (by decide) (by decide) (by decide) rfl rfl
  exact ⟨h.1, h.2.1⟩

/-- Claim C6, counterexample: the claim says that in every run the totals are
set (exactly once) from the full source listing and every existing entry is
recorded as skipped before any transfer, but `copy_bucket` returns before the
totals and skip phases when nothing needs transferring.  With one source
object identical in the destination, the plan has one existing entry, yet the
final tracker has totals 0, zero skipped files and a zero EXISTING status
count. -/
theorem C6_counterexample :
    ((analyze_transfer_needs [(str "k", ⟨str "k", 5, str "e", 0⟩)]
        [(str "k", ⟨str "k", 5, str "e", 0⟩)]).2.1).length = 1 ∧
    (copy_bucket (fun _ => 1) (fun _ => true) 0
        [(str "k", ⟨str "k", 5, str "e", 0⟩)]
        [(str "k", ⟨str "k", 5, str "e", 0⟩)]).total_files = 0 ∧
    (copy_bucket (fun _ => 1) (fun _ => true) 0
        [(str "k", ⟨str "k", 5, str "e", 0⟩)]
        [(str "k", ⟨str "k", 5, str "e", 0⟩)]).skipped_files = 0 ∧
    (copy_bucket (fun _ => 1) (fun _ => true) 0
        [(str "k", ⟨str "k", 5, str "e", 0⟩)]
        [(str "k", ⟨str "k", 5, str "e", 0⟩)]).status_counts
      TransferStatus.EXISTING = 0 := by decide

/-- Claim C6, amended: in every run in which at least one object needs
transferring, the tracker totals are set exactly once, before the transfer
phase, from the full source listing (object count and total byte size over
both to-transfer and existing objects), every existing plan entry is recorded
as skipped — with its extension statistics and an EXISTING status increment —
before any transfer starts, and the transfer phase changes neither the totals
nor the skipped counters.  (In a run with nothing to transfer the code
returns before the totals and skip phases.) -/
theorem C6_phases (clock : Nat → ℚ) (ok : Str → Bool) (start : ℚ)
    (source dest : List (Str × ObjInfo))
    (h : (analyze_transfer_needs source dest).1 ≠ []) :
    (preTransferTracker start source dest).total_files = source.length ∧
    (preTransferTracker start source dest).total_size = sizesSum source ∧
    (preTransferTracker start source dest).processed_files = 0 ∧
    (preTransferTracker start source dest).skipped_files =
      (analyze_transfer_needs source dest).2.1.length ∧
    (preTransferTracker start source dest).skipped_size =
      exSizesSum (analyze_transfer_needs source dest).2.1 ∧
    (preTransferTracker start source dest).status_counts
        TransferStatus.EXISTING =
      (analyze_transfer_needs source dest).2.1.length ∧
    (preTransferTracker start source dest).extension_stats =
      (analyze_transfer_needs source dest).2.1.foldl
        (fun f e => extBump f e.1 e.2.size) (fun _ => (0, 0)) ∧
    (copy_bucket clock ok start source dest).total_files = source.length ∧
    (copy_bucket clock ok start source dest).total_size = sizesSum source ∧
    (copy_bucket clock ok start source dest).skipped_files =
      (analyze_transfer_needs source dest).2.1.length ∧
    (copy_bucket clock ok start source dest).skipped_size =
      exSizesSum (analyze_transfer_needs source dest).2.1 := by
  have hcb : copy_bucket clock ok start source dest =
      (transferPhase clock ok (preTransferTracker start source dest, 0)
        (analyze_transfer_needs source dest).1).1 := by
    unfold copy_bucket
    rw [if_neg h]
  refine ⟨?_, ?_, ?_, ?_, ?_, ?_, ?_, ?_, ?_, ?_, ?_⟩
  · rw [preTransferTracker, skipPhase_total_files]; simp
  · rw [preTransferTracker, skipPhase_total_size]; simp
  · rw [preTransferTracker, skipPhase_processed_files]; simp [initTracker]
  · rw [preTransferTracker, skipPhase_skipped_files]; simp [initTracker]
  · rw [preTransferTracker, skipPhase_skipped_size]; simp [initTracker]
  · rw [preTransferTracker, skipPhase_status_EXISTING]; simp [initTracker]
  · rw [preTransferTracker, skipPhase_extension_stats]; rfl
  · rw [hcb, transferPhase_total_files, preTransferTracker,
      skipPhase_total_files]
    simp
  · rw [hcb, transferPhase_total_size, preTransferTracker,
      skipPhase_total_size]
    simp
  · rw [hcb, transferPhase_skipped_files, preTransferTracker,
      skipPhase_skipped_files]
    simp [initTracker]
  · rw [hcb, transferPhase_skipped_size, preTransferTracker,
      skipPhase_skipped_size]
    simp [initTracker]

/-- Witness for C6_phases: one new source object against an empty
destination. -/
theorem C6_phases_witness :
    (copy_bucket (fun _ => 1) (fun _ => true) 0
        [(str "a", ⟨str "a", 5, str "x", 0⟩)] []).total_files = 1 ∧
    (copy_bucket (fun _ => 1) (fun _ => true) 0
        [(str "a", ⟨str "a", 5, str "x", 0⟩)] []).skipped_files = 0 := by
  have h := C6_phases (fun _ => 1) (fun _ => true) 0
    [(str "a", ⟨str "a", 5, str "x", 0⟩)] [] (by decide)
  refine ⟨h.2.2.2.2.2.2.2.1.trans (by decide), ?_⟩
  rw [h.2.2.2.2.2.2.2.2.2.1]
  decide

/-- Claim C2: throughout a `copy_bucket` run, every tracker state satisfies
`processed_files + skipped_files ≤ total_files`, and at completion of the
transfer loop `processed_files + skipped_files` equals `total_files` minus
the length of `failed_files`: every source object ends in exactly one of
processed, skipped, or failed.  The no-duplicate-full-keys hypothesis is what
makes the association-list model of the planner's dicts exact; it holds for
all listings since the relative path is a function of the full key. -/
theorem C2_accounting (clock : Nat → ℚ) (ok : Str → Bool) (start : ℚ)
    (source dest : List (Str × ObjInfo))
    (hkeys : (source.map (fun p => p.2.full_key)).Nodup) :
    (∀ u ∈ copyBucketTrace clock ok start source dest,
      u.processed_files + u.skipped_files ≤ u.total_files) ∧
    (copy_bucket clock ok start source dest).processed_files +
        (copy_bucket clock ok start source dest).skipped_files =
      (copy_bucket clock ok start source dest).total_files -
        (copy_bucket clock ok start source dest).failed_files.length := by
  have hlen := analyze_length source dest
  by_cases hT : (analyze_transfer_needs source dest).1 = []
  · constructor
    · intro u hu
      rw [copyBucketTrace, if_pos hT] at hu
      simp only [List.mem_singleton] at hu
      subst hu
      simp [initTracker]
    · rw [copy_bucket, if_pos hT]
      simp [initTracker]
  · constructor
    · intro u hu
      rw [copyBucketTrace, if_neg hT] at hu
      simp only [List.mem_cons, List.mem_append] at hu
      rcases hu with hu | hu | hu | hu
      · subst hu; simp [initTracker]
      · subst hu; simp [initTracker]
      · obtain ⟨e1, e2, he, huu⟩ := skipTrace_mem hu
        subst huu
        rw [skipPhase_processed_files, skipPhase_skipped_files,
          skipPhase_total_files]
        simp only [add_total_processed_files, add_total_skipped_files,
          add_total_total_files, initTracker]
        have : e1.length ≤ (analyze_transfer_needs source dest).2.1.length := by
          rw [he, List.length_append]; omega
        omega
      · obtain ⟨i1, i2, hi, huu⟩ := transferTrace_mem hu
        subst huu
        rw [transferPhase_processed_files, transferPhase_skipped_files,
          transferPhase_total_files]
        simp only [skipPhase_processed_files, skipPhase_skipped_files,
          skipPhase_total_files, add_total_processed_files,
          add_total_skipped_files, add_total_total_files, initTracker]
        have hok : okCount ok i1 ≤ i1.length := List.length_filter_le _ _
        have hi1 : i1.length ≤ (analyze_transfer_needs source dest).1.length := by
          rw [hi, List.length_append]; omega
        omega
    · have hcb : copy_bucket clock ok start source dest =
          (transferPhase clock ok (preTransferTracker start source dest, 0)
            (analyze_transfer_needs source dest).1).1 := by
        unfold copy_bucket
        rw [if_neg hT]
      rw [hcb, transferPhase_processed_files, transferPhase_skipped_files,
        transferPhase_total_files, transferPhase_failed_files]
      rw [preTransferTracker, skipPhase_processed_files,
        skipPhase_skipped_files, skipPhase_total_files,
        skipPhase_failed_files]
      simp only [add_total_processed_files, add_total_skipped_files,
        add_total_total_files, add_total_failed_files, initTracker,
        List.nil_append, List.length_append]
      have hok := okCount_add_failedKeys_length ok
        (analyze_transfer_needs source dest).1
      omega

/-- Witness for C2_accounting: one new source object against an empty
destination; the initial tracker state satisfies the running invariant and
the final state satisfies the completion equation. -/
theorem C2_accounting_witness :
    (initTracker 0).processed_files + (initTracker 0).skipped_files ≤
      (initTracker 0).total_files ∧
    (copy_bucket (fun _ => 1) (fun _ => true) 0
          [(str "a", ⟨str "a", 5, str "x", 0⟩)] []).processed_files +
        (copy_bucket (fun _ => 1) (fun _ => true) 0
          [(str "a", ⟨str "a", 5, str "x", 0⟩)] []).skipped_files =
      (copy_bucket (fun _ => 1) (fun _ => true) 0
          [(str "a", ⟨str "a", 5, str "x", 0⟩)] []).total_files -
        (copy_bucket (fun _ => 1) (fun _ => true) 0
          [(str "a", ⟨str "a", 5, str "x", 0⟩)]
          []).failed_files.length := by
  have h := C2_accounting (fun _ => 1) (fun _ => true) 0
    [(str "a", ⟨str "a", 5, str "x", 0⟩)] [] (by decide)
  refine ⟨h.1 (initTracker 0) ?_, h.2⟩
  rw [copyBucketTrace, if_neg (by decide)]
  exact List.mem_cons_self _ _

end S3hop
